import Mathlib

/-
Verification of the agar.image module (agar/image.py): a helper library for
images stored in the App Engine Blobstore. The embedding models the platform
services (datastore, blobstore, memcache, image introspection, URL fetch,
serving-URL service) as explicit state plus oracle functions, and the module
operations (BaseImage.create, get_serving_url, format/width/height,
image_data, Image.delete / NdbImage._pre_delete_hook) as pure functions over
that state. Platform calls that can raise are modelled with Option results
(none = the call raised), so code paths that catch or propagate exceptions
are explicit.
-/

namespace Agar

/-- Raw byte data, as handled opaquely by the Python code. -/
abbrev Bytes := List Nat

/-- Image formats as recognised by the platform image service
(images.JPEG, images.PNG, images.GIF, and anything else). -/
inductive ImgFormat
  | jpeg
  | png
  | gif
  | other (n : Nat)
deriving DecidableEq, Repr

/-- Metadata the platform image introspection returns for recognisable image
data: format, width and height. -/
structure ImgMeta where
  format : ImgFormat
  width : Nat
  height : Nat
deriving DecidableEq, Repr

/-- A blob stored in the blobstore: the mime type and filename passed to
files.blobstore.create, and the written bytes. -/
structure Blob where
  mime : String
  filename : String
  data : Bytes
deriving DecidableEq, Repr

/-- A persisted Image / NdbImage entity: the optional blob reference
(blob_info for db.Model, blob_key for ndb), and source_url. Timestamps are
omitted; no claim mentions them. -/
structure Entity where
  blobKey : Option Nat := none
  sourceUrl : Option String := none
deriving DecidableEq, Repr

/-- The persistent world: the datastore (entity key to entity), the
blobstore (blob key to blob), and fresh-key counters standing for the
platform key allocators. -/
structure World where
  datastore : List (Nat × Entity) := []
  nextKey : Nat := 0
  blobstore : List (Nat × Blob) := []
  nextBlob : Nat := 0
deriving DecidableEq, Repr

/-- ImageConfig settings with their defaults from image.py. -/
structure ImageConfig where
  SERVING_URL_TIMEOUT : Nat := 60*60
  SERVING_URL_LOOKUP_TRIES : Nat := 3
  VALID_MIME_TYPES : List String := ["image/jpeg", "image/png", "image/gif"]
deriving DecidableEq, Repr

/-- IMAGE_HEADER_SIZE = 50000 from image.py. -/
def IMAGE_HEADER_SIZE : Nat := 50000

/-- Oracles for the external platform services used by the module:
urlfetch.fetch content and Content-Type header, urlparse-based filename
extraction, mimetypes.guess_type, images.Image(blob_key=...) introspection
(none = raises NotImageError), images.Image(image_data=...) introspection
(none = raises NotImageError), and images.crop with output_encoding and
quality (the full-frame re-encode used by create). -/
structure Oracles where
  fetchContent : String → Option Bytes
  fetchMime : String → Option String
  urlFilename : String → String
  guessMime : String → Option String
  introspectBlob : Nat → Option ImgMeta
  introspectData : Bytes → Option ImgMeta
  reencode : Bytes → ImgFormat → Nat → Bytes

/-- Datastore lookup by entity key (db.get / key.get). -/
def entityLookup (w : World) (k : Nat) : Option Entity :=
  (w.datastore.find? (fun p => p.1 == k)).map (fun p => p.2)

/-- Blobstore lookup by blob key. -/
def blobLookup (w : World) (b : Nat) : Option Blob :=
  (w.blobstore.find? (fun p => p.1 == b)).map (fun p => p.2)

/-- blobstore.fetch_data(blob_key, start, end): the bytes from index start
to index end INCLUSIVE (end-inclusive per the Blobstore API), empty when
the blob is absent. -/
def fetch_data (w : World) (bk : Nat) (start endIdx : Nat) : Bytes :=
  match blobLookup w bk with
  | some b => (b.data.drop start).take (endIdx + 1 - start)
  | none => []

/-- BaseImage.image_data: the full bytes read from a BlobReader on the blob
key, or none when no blob reference is attached. -/
def image_data (w : World) (e : Entity) : Option Bytes :=
  match e.blobKey with
  | some bk => (blobLookup w bk).map (fun b => b.data)
  | none => none

/-- image_data of the persisted entity at key k. -/
def image_data_of (w : World) (k : Nat) : Option Bytes :=
  match entityLookup w k with
  | some e => image_data w e
  | none => none

/-- BaseImage.format: none blob reference gives ok none (the `self.image is
None` branch); otherwise introspect the blob-backed image, and on
NotImageError fetch bytes 0..IMAGE_HEADER_SIZE of the blob and re-run
introspection on that prefix; a second NotImageError propagates
(Except.error). -/
def format (o : Oracles) (w : World) (e : Entity) : Except Unit (Option ImgFormat) :=
  match e.blobKey with
  | none => Except.ok none
  | some bk =>
    match o.introspectBlob bk with
    | some m => Except.ok (some m.format)
    | none =>
      match o.introspectData (fetch_data w bk 0 IMAGE_HEADER_SIZE) with
      | some m => Except.ok (some m.format)
      | none => Except.error ()

/-- BaseImage.width, with the same structure as format. -/
def width (o : Oracles) (w : World) (e : Entity) : Except Unit (Option Nat) :=
  match e.blobKey with
  | none => Except.ok none
  | some bk =>
    match o.introspectBlob bk with
    | some m => Except.ok (some m.width)
    | none =>
      match o.introspectData (fetch_data w bk 0 IMAGE_HEADER_SIZE) with
      | some m => Except.ok (some m.width)
      | none => Except.error ()

/-- BaseImage.height, with the same structure as format. -/
def height (o : Oracles) (w : World) (e : Entity) : Except Unit (Option Nat) :=
  match e.blobKey with
  | none => Except.ok none
  | some bk =>
    match o.introspectBlob bk with
    | some m => Except.ok (some m.height)
    | none =>
      match o.introspectData (fetch_data w bk 0 IMAGE_HEADER_SIZE) with
      | some m => Except.ok (some m.height)
      | none => Except.error ()

/-- The memcache: entries of (key, value, expiry time), all under the fixed
namespace used by get_serving_url. -/
abbrev Memcache := List (String × String × Nat)

/-- memcache.get: the value of a stored entry whose expiry has not passed. -/
def mget (cache : Memcache) (now : Nat) (k : String) : Option String :=
  match cache.find? (fun e => e.1 == k && decide (now < e.2.2)) with
  | some e => some e.2.1
  | none => none

/-- memcache.set with a relative time: stores the value with expiry
now + t, replacing any entry under the same key. -/
def mset (cache : Memcache) (k v : String) (t now : Nat) : Memcache :=
  (k, v, now + t) :: cache.filter (fun e => e.1 != k)

/-- Python str() of an optional int, as used in the cache key format
string: None prints as "None". -/
def pyStr : Option Nat → String
  | none => "None"
  | some n => toString n

/-- Python str() of a bool, as used in the cache key format string. -/
def pyBool : Bool → String
  | true => "True"
  | false => "False"

/-- The serving-URL cache key "%s-%s-%s" % (model_key, size, crop): it is
built from the entity key, the size and the crop flag only. -/
def cacheKey (modelKey : String) (size : Option Nat) (crop : Bool) : String :=
  modelKey ++ "-" ++ pyStr size ++ "-" ++ pyBool crop

/-- The retry loop of get_serving_url. svc i is the outcome of the
(i+1)-th call to images.get_serving_url: some url on success, none when the
call raised (the platform call raises on failure rather than returning
None; the exception is caught by the bare except). Returns the url found,
the number of service calls made, and whether logging.error ran (which the
code does when a call raises and the incremented try counter has reached
SERVING_URL_LOOKUP_TRIES). -/
def servingLoop (svc : Nat → Option String) (maxTries tries calls : Nat)
    (logged : Bool) : Option String × Nat × Bool :=
  if _h : tries < maxTries then
    match svc tries with
    | some u => (some u, calls + 1, logged)
    | none =>
      servingLoop svc maxTries (tries + 1) (calls + 1)
        (logged || decide (maxTries ≤ tries + 1))
  else (none, calls, logged)
termination_by maxTries - tries

/-- The outcome of one BaseImage.get_serving_url call: the returned url,
the memcache state afterwards, how many images.get_serving_url calls were
made, and whether an error was logged. The function is total: every
platform failure is absorbed (the claim that it never raises to its caller
is embodied by this totality together with the Option modelling of the
raising service call). -/
structure ServeResult where
  url : Option String
  cache : Memcache
  svcCalls : Nat
  loggedError : Bool
deriving DecidableEq, Repr

/-- BaseImage.get_serving_url(size, crop, secure_url): with no blob key the
whole body is skipped and None is returned; otherwise look up the cache
under the (model key, size, crop) key; on a miss run the bounded retry
loop, and on success store the url in the cache with the configured
timeout. svc is the images.get_serving_url oracle, taking the size, crop
and secure_url arguments of the platform call plus the attempt index. -/
def get_serving_url (cfg : ImageConfig) (modelKey : String) (blobKey : Option Nat)
    (size : Option Nat) (crop : Bool) (secure_url : Option Bool)
    (svc : Option Nat → Bool → Option Bool → Nat → Option String)
    (cache : Memcache) (now : Nat) : ServeResult :=
  match blobKey with
  | none => { url := none, cache := cache, svcCalls := 0, loggedError := false }
  | some _ =>
    let key := cacheKey modelKey size crop
    match mget cache now key with
    | some u => { url := some u, cache := cache, svcCalls := 0, loggedError := false }
    | none =>
      match servingLoop (svc size crop secure_url) cfg.SERVING_URL_LOOKUP_TRIES 0 0 false with
      | (some u, calls, logged) =>
        { url := some u
          cache := mset cache key u cfg.SERVING_URL_TIMEOUT now
          svcCalls := calls
          loggedError := logged }
      | (none, calls, logged) =>
        { url := none, cache := cache, svcCalls := calls, loggedError := logged }

/-- create_new_entity: construct the entity and put() it under a fresh
datastore key. -/
def create_new_entity (w : World) (e : Entity) : Nat × World :=
  (w.nextKey,
   { w with datastore := (w.nextKey, e) :: w.datastore, nextKey := w.nextKey + 1 })

/-- put() on an existing key: overwrite the persisted entity. -/
def putEntity (w : World) (k : Nat) (e : Entity) : World :=
  { w with datastore := (k, e) :: w.datastore.filter (fun p => p.1 != k) }

/-- Image.delete / NdbImage.delete with its _pre_delete_hook: both delete
the attached blob when the blob reference is non-null (blob_info.delete()),
then delete the entity record. -/
def deleteImage (w : World) (k : Nat) : World :=
  match entityLookup w k with
  | none => w
  | some e =>
    let w1 :=
      match e.blobKey with
      | some bk => { w with blobstore := w.blobstore.filter (fun p => p.1 != bk) }
      | none => w
    { w1 with datastore := w1.datastore.filter (fun p => p.1 != k) }

/-- files.blobstore.create + write + finalize + get_blob_key: a fresh blob
holding the data under the given mime type and uploaded filename. -/
def writeBlob (w : World) (mime filename : String) (data : Bytes) : Nat × World :=
  (w.nextBlob,
   { w with blobstore := (w.nextBlob, { mime := mime, filename := filename, data := data }) :: w.blobstore,
            nextBlob := w.nextBlob + 1 })

/-- The errors BaseImage.create raises: db.Error("No image data"),
images.BadImageError (carrying the rejected mime type; the Python message
interpolates it), and images.NotImageError from images.Image(data).format. -/
inductive CreateErr
  | dbError (msg : String)
  | badImage (mime : String)
  | notImage
deriving DecidableEq, Repr

/-- The data-acquisition step of create: when data is None and a url is
given, fetch the url; the content becomes the data, the Content-Type
header fills a missing mime type, and the url path basename fills a
missing filename. Otherwise data, mime type and filename pass through. -/
def fetchStage (o : Oracles) (data : Option Bytes) (url : Option String)
    (mime_type filename : Option String) :
    Option Bytes × Option String × Option String :=
  match data, url with
  | none, some u =>
    (o.fetchContent u,
     (match mime_type with
      | some m => some m
      | none => o.fetchMime u),
     (match filename with
      | some f => some f
      | none => some (o.urlFilename u)))
  | d, _ => (d, mime_type, filename)

/-- mime_type = mime_type or mimetypes.guess_type(filename)[0] or
"application/octet-stream". -/
def resolveMime (o : Oracles) (mime_type : Option String) (filename : String) : String :=
  match mime_type with
  | some m => m
  | none =>
    match o.guessMime filename with
    | some m => m
    | none => "application/octet-stream"

/-- The canonical re-encoding decision of create: a target format when the
mime type is image/jpeg or image/png and the detected format differs, else
none. -/
def newFormat (mime : String) (fmt : ImgFormat) : Option ImgFormat :=
  if mime = "image/jpeg" ∧ fmt ≠ ImgFormat.jpeg then some ImgFormat.jpeg
  else if mime = "image/png" ∧ fmt ≠ ImgFormat.png then some ImgFormat.png
  else none

/-- The bytes create stores: the input bytes, or when newFormat demands a
canonical format, images.crop(data, 0, 0, 1, 1, output_encoding, quality=100)
on them. -/
def encodedData (o : Oracles) (mime : String) (fmt : ImgFormat) (d : Bytes) : Bytes :=
  match newFormat mime fmt with
  | some f => o.reencode d f 100
  | none => d

/-- BaseImage.create. The pair of optional blob arguments stands for
blob_info and blob_key (their keys); either one short-circuits all data
handling. Otherwise: acquire data (fetchStage), raise db.Error when none,
persist a placeholder entity carrying source_url, resolve the filename from
the entity key and the mime type, reject a mime type outside
VALID_MIME_TYPES (deleting the placeholder first), introspect the data
(NotImageError propagates), re-encode when the canonical format differs,
write the blob, attach its key and put() the entity again. Returns the
entity key or the raised error, together with the final world. -/
def create (o : Oracles) (cfg : ImageConfig) (w : World)
    (blob_key blob_info : Option Nat) (data : Option Bytes)
    (filename url mime_type : Option String) : Except CreateErr Nat × World :=
  if blob_info.isSome then
    let r := create_new_entity w { blobKey := blob_info }
    (Except.ok r.1, r.2)
  else if blob_key.isSome then
    let r := create_new_entity w { blobKey := blob_key }
    (Except.ok r.1, r.2)
  else
    match fetchStage o data url mime_type filename with
    | (none, _, _) => (Except.error (CreateErr.dbError "No image data"), w)
    | (some d, mt0, fn0) =>
      let r := create_new_entity w { sourceUrl := url }
      let k := r.1
      let w1 := r.2
      let fn := fn0.getD (toString k)
      let mt := resolveMime o mt0 fn
      if mt ∈ cfg.VALID_MIME_TYPES then
        match o.introspectData d with
        | none => (Except.error CreateErr.notImage, w1)
        | some meta =>
          let d1 := encodedData o mt meta.format d
          let rb := writeBlob w1 mt fn d1
          let w3 := putEntity rb.2 k { blobKey := some rb.1, sourceUrl := url }
          (Except.ok k, w3)
      else
        (Except.error (CreateErr.badImage mt), deleteImage w1 k)

/-- A trivial oracle assignment for concrete witnesses: every platform call
fails or is inert. -/
def noOracles : Oracles where
  fetchContent := fun _ => none
  fetchMime := fun _ => none
  urlFilename := fun _ => ""
  guessMime := fun _ => none
  introspectBlob := fun _ => none
  introspectData := fun _ => none
  reencode := fun d _ _ => d

/-- An oracle assignment recognising every byte list as a small PNG, for
concrete witnesses of the success paths. -/
def pngOracles : Oracles where
  fetchContent := fun _ => some [1, 2]
  fetchMime := fun _ => some "image/png"
  urlFilename := fun _ => "pic.png"
  guessMime := fun _ => none
  introspectBlob := fun _ => none
  introspectData := fun _ => some { format := ImgFormat.png, width := 2, height := 1 }
  reencode := fun d _ _ => 0 :: d

/-- A one-entity, one-blob world for concrete witnesses. -/
def demoWorld : World where
  datastore := [(0, { blobKey := some 7 })]
  nextKey := 1
  blobstore := [(7, { mime := "image/png", filename := "a", data := [1, 2, 3] })]
  nextBlob := 8

/- Helper lemmas about key-indexed association lists. -/

/-- Removing every pair under key k makes a lookup of k fail. -/
theorem find?_filter_ne_self {α : Type} (l : List (Nat × α)) (k : Nat) :
    (l.filter (fun p => p.1 != k)).find? (fun p => p.1 == k) = none := by
  apply List.find?_eq_none.mpr
  intro x hx
  have hmem := (List.mem_filter.mp hx).2
  simp only [bne_iff_ne, ne_eq] at hmem
  simp [hmem]

/-- Filtering out key k leaves a list untouched when every key is below k. -/
theorem filter_ne_of_lt {α : Type} (l : List (Nat × α)) (k : Nat)
    (h : ∀ p ∈ l, p.1 < k) :
    l.filter (fun p => p.1 != k) = l := by
  apply List.filter_eq_self.mpr
  intro a ha
  simp only [bne_iff_ne, ne_eq]
  exact Nat.ne_of_lt (h a ha)

/-- Claim C2: deleting an Image or NdbImage entity deletes the attached
blob (when a blob reference is attached) and the entity record: afterwards
the entity key no longer resolves and no blob under the entity's blob
reference remains in the blobstore. -/
theorem delete_removes_entity_and_blob (w : World) (k : Nat) (e : Entity)
    (h : entityLookup w k = some e) :
    entityLookup (deleteImage w k) k = none ∧
      ∀ bk, e.blobKey = some bk → blobLookup (deleteImage w k) bk = none := by
  unfold deleteImage
  rw [h]
  constructor
  · cases hbk : e.blobKey <;>
      simp [hbk, entityLookup, find?_filter_ne_self]
  · intro bk hbk
    simp [hbk, blobLookup, find?_filter_ne_self]

/-- Claim C2 witness: the demo world with one entity holding blob 7. -/
theorem delete_removes_entity_and_blob_w :
    entityLookup demoWorld 0 = some { blobKey := some 7 } ∧
    (entityLookup (deleteImage demoWorld 0) 0 = none ∧
      ∀ bk, ({ blobKey := some 7 } : Entity).blobKey = some bk →
        blobLookup (deleteImage demoWorld 0) bk = none) :=
  ⟨rfl, delete_removes_entity_and_blob demoWorld 0 { blobKey := some 7 } rfl⟩

/-- Claim C7: a create call with no blob reference, no data, and either no
url or a url fetch yielding no content raises db.Error("No image data") and
returns the world unchanged: no entity and no blob is left behind. -/
theorem create_missing_data_error (o : Oracles) (cfg : ImageConfig) (w : World)
    (filename url mime_type : Option String)
    (h : url = none ∨ ∃ u, url = some u ∧ o.fetchContent u = none) :
    create o cfg w none none none filename url mime_type
      = (Except.error (CreateErr.dbError "No image data"), w) := by
  rcases h with h | ⟨u, hu, hc⟩
  · subst h
    simp [create, fetchStage]
  · subst hu
    simp [create, fetchStage, hc]

/-- Claim C7 witness: create with nothing supplied at all. -/
theorem create_missing_data_error_w :
    create noOracles {} {} none none none none none none
      = (Except.error (CreateErr.dbError "No image data"), {}) :=
  create_missing_data_error noOracles {} {} none none none (Or.inl rfl)

/-- Claim C8: a create call supplying a blob_info or blob_key skips all
data handling: no url fetch, no mime validation and no blobstore write can
occur, because the result is one persisted entity carrying the given blob
reference, in a world whose blobstore is unchanged, independently of the
oracles and of the data, filename, url and mime_type arguments (none of
which appear on the right-hand sides). -/
theorem create_blob_ref_skips_handling (o : Oracles) (cfg : ImageConfig) (w : World)
    (b : Nat) (blob_key : Option Nat) (data : Option Bytes)
    (filename url mime_type : Option String) :
    create o cfg w blob_key (some b) data filename url mime_type
      = (Except.ok w.nextKey,
         { w with datastore := (w.nextKey, { blobKey := some b }) :: w.datastore,
                  nextKey := w.nextKey + 1 }) ∧
    create o cfg w (some b) none data filename url mime_type
      = (Except.ok w.nextKey,
         { w with datastore := (w.nextKey, { blobKey := some b }) :: w.datastore,
                  nextKey := w.nextKey + 1 }) := by
  constructor <;> simp [create, create_new_entity]

/-- Claim C1: a create call whose resolved mime type falls outside
VALID_MIME_TYPES raises BadImageError, and the world it leaves has exactly
the original datastore and blobstore: the placeholder entity persisted
earlier in the call was deleted again. The freshness hypothesis states that
the allocator never hands out a key already in the datastore. -/
theorem create_invalid_mime_rolls_back (o : Oracles) (cfg : ImageConfig) (w : World)
    (data : Option Bytes) (filename url mime_type : Option String)
    (d : Bytes) (mt0 fn0 : Option String)
    (hwf : ∀ p ∈ w.datastore, p.1 < w.nextKey)
    (hfetch : fetchStage o data url mime_type filename = (some d, mt0, fn0))
    (hmt : resolveMime o mt0 (fn0.getD (toString w.nextKey)) ∉ cfg.VALID_MIME_TYPES) :
    (create o cfg w none none data filename url mime_type).1
        = Except.error (CreateErr.badImage (resolveMime o mt0 (fn0.getD (toString w.nextKey)))) ∧
    (create o cfg w none none data filename url mime_type).2.datastore = w.datastore ∧
    (create o cfg w none none data filename url mime_type).2.blobstore = w.blobstore := by
  simp only [create, Option.isSome_none, Bool.false_eq_true, if_false, hfetch,
    create_new_entity, if_neg hmt]
  refine ⟨trivial, ?_, ?_⟩ <;>
    simp [deleteImage, entityLookup, filter_ne_of_lt w.datastore w.nextKey hwf]

/-- Claim C1 witness: supplying mime type text/plain with raw data against
the default configuration. -/
theorem create_invalid_mime_rolls_back_w :
    (∀ p ∈ (({} : World)).datastore, p.1 < ({} : World).nextKey) ∧
    (fetchStage noOracles (some [1, 2]) none (some "text/plain") none
        = (some [1, 2], some "text/plain", none)) ∧
    (resolveMime noOracles (some "text/plain")
        ((none : Option String).getD (toString ({} : World).nextKey))
        ∉ ({} : ImageConfig).VALID_MIME_TYPES) ∧
    ((create noOracles {} {} none none (some [1, 2]) none none (some "text/plain")).1
        = Except.error (CreateErr.badImage
            (resolveMime noOracles (some "text/plain")
              ((none : Option String).getD (toString ({} : World).nextKey)))) ∧
     (create noOracles {} {} none none (some [1, 2]) none none
         (some "text/plain")).2.datastore = ({} : World).datastore ∧
     (create noOracles {} {} none none (some [1, 2]) none none
         (some "text/plain")).2.blobstore = ({} : World).blobstore) :=
  ⟨by decide, rfl, by decide,
   create_invalid_mime_rolls_back noOracles {} {} (some [1, 2]) none none
     (some "text/plain") [1, 2] (some "text/plain") none (by decide) rfl (by decide)⟩

/-- Claim C10: a create call that reaches format detection (data present,
resolved mime type in the allow-list) on bytes the image service cannot
recognise propagates NotImageError after the placeholder entity was
persisted: the final world keeps the placeholder, with no blob attached and
the blobstore untouched. -/
theorem create_not_image_keeps_placeholder (o : Oracles) (cfg : ImageConfig)
    (w : World) (data : Option Bytes) (filename url mime_type : Option String)
    (d : Bytes) (mt0 fn0 : Option String)
    (hfetch : fetchStage o data url mime_type filename = (some d, mt0, fn0))
    (hmt : resolveMime o mt0 (fn0.getD (toString w.nextKey)) ∈ cfg.VALID_MIME_TYPES)
    (hdetect : o.introspectData d = none) :
    create o cfg w none none data filename url mime_type
      = (Except.error CreateErr.notImage,
         { w with datastore := (w.nextKey, { blobKey := none, sourceUrl := url }) :: w.datastore,
                  nextKey := w.nextKey + 1 }) := by
  simp [create, hfetch, create_new_entity, if_pos hmt, hdetect]

/-- Claim C10 witness: unrecognisable bytes under a valid mime type leave
the placeholder entity persisted. -/
theorem create_not_image_keeps_placeholder_w :
    (fetchStage noOracles (some [9]) none (some "image/png") none
        = (some [9], some "image/png", none)) ∧
    (resolveMime noOracles (some "image/png")
        ((none : Option String).getD (toString ({} : World).nextKey))
        ∈ ({} : ImageConfig).VALID_MIME_TYPES) ∧
    create noOracles {} {} none none (some [9]) none none (some "image/png")
      = (Except.error CreateErr.notImage,
         { datastore := [(0, { blobKey := none, sourceUrl := none })], nextKey := 1 }) :=
  ⟨rfl, by decide,
   create_not_image_keeps_placeholder noOracles {} {} (some [9]) none none
     (some "image/png") [9] (some "image/png") none rfl (by decide) rfl⟩

/- The serving-URL retry loop: unfolding lemma and bounds. -/

/-- One-step unfolding of servingLoop as a plain conditional. -/
theorem servingLoop_eq (svc : Nat → Option String) (maxTries tries calls : Nat)
    (logged : Bool) :
    servingLoop svc maxTries tries calls logged =
      if tries < maxTries then
        match svc tries with
        | some u => (some u, calls + 1, logged)
        | none =>
          servingLoop svc maxTries (tries + 1) (calls + 1)
            (logged || decide (maxTries ≤ tries + 1))
      else (none, calls, logged) := by
  rw [servingLoop]
  by_cases h : tries < maxTries
  · rw [dif_pos h, if_pos h]
  · rw [dif_neg h, if_neg h]

/-- The retry loop makes at most maxTries - tries further service calls. -/
theorem servingLoop_calls_le (svc : Nat → Option String) (maxTries : Nat) :
    ∀ n tries calls logged, maxTries - tries ≤ n →
      (servingLoop svc maxTries tries calls logged).2.1 ≤ calls + (maxTries - tries) := by
  intro n
  induction n with
  | zero =>
    intro tries calls logged h
    rw [servingLoop_eq, if_neg (by omega)]
    simp
  | succ n ih =>
    intro tries calls logged h
    rw [servingLoop_eq]
    by_cases hlt : tries < maxTries
    · rw [if_pos hlt]
      cases hsvc : svc tries with
      | some u => simp; omega
      | none =>
        have := ih (tries + 1) (calls + 1)
          (logged || decide (maxTries ≤ tries + 1)) (by omega)
        simp only []
        omega
    · rw [if_neg hlt]
      simp

/-- When every service call up to maxTries raises, the loop exhausts the
remaining attempts, returns no url and ends with the error logged. -/
theorem servingLoop_all_fail (svc : Nat → Option String) (maxTries : Nat)
    (hfail : ∀ i, i < maxTries → svc i = none) :
    ∀ n tries calls logged, maxTries - tries = n + 1 →
      servingLoop svc maxTries tries calls logged = (none, calls + (n + 1), true) := by
  intro n
  induction n with
  | zero =>
    intro tries calls logged h
    have hlt : tries < maxTries := by omega
    rw [servingLoop_eq, if_pos hlt, hfail tries hlt]
    rw [servingLoop_eq, if_neg (by omega)]
    have : decide (maxTries ≤ tries + 1) = true := by
      apply decide_eq_true
      omega
    rw [this]
    simp
  | succ n ih =>
    intro tries calls logged h
    have hlt : tries < maxTries := by omega
    rw [servingLoop_eq, if_pos hlt, hfail tries hlt]
    have := ih (tries + 1) (calls + 1) (logged || decide (maxTries ≤ tries + 1)) (by omega)
    have harith : calls + 1 + (n + 1) = calls + (n + 1 + 1) := by omega
    rw [harith] at this
    rw [this]

/-- Claim C3: with a blob reference attached and a cache miss,
get_serving_url makes at most SERVING_URL_LOOKUP_TRIES service calls, and
when every attempt raises it returns none with the error logged after
exactly SERVING_URL_LOOKUP_TRIES calls. The function never raises: it is
total, every failing service call being absorbed by the loop. -/
theorem get_serving_url_retry_bound (cfg : ImageConfig) (mk : String) (bk : Nat)
    (size : Option Nat) (crop : Bool) (secure_url : Option Bool)
    (svc : Option Nat → Bool → Option Bool → Nat → Option String)
    (cache : Memcache) (now : Nat)
    (hmiss : mget cache now (cacheKey mk size crop) = none) :
    (get_serving_url cfg mk (some bk) size crop secure_url svc cache now).svcCalls
        ≤ cfg.SERVING_URL_LOOKUP_TRIES ∧
    (0 < cfg.SERVING_URL_LOOKUP_TRIES →
      (∀ i, i < cfg.SERVING_URL_LOOKUP_TRIES → svc size crop secure_url i = none) →
      (get_serving_url cfg mk (some bk) size crop secure_url svc cache now).url = none ∧
      (get_serving_url cfg mk (some bk) size crop secure_url svc cache now).loggedError
          = true ∧
      (get_serving_url cfg mk (some bk) size crop secure_url svc cache now).svcCalls
          = cfg.SERVING_URL_LOOKUP_TRIES) := by
  constructor
  · have hle := servingLoop_calls_le (svc size crop secure_url)
      cfg.SERVING_URL_LOOKUP_TRIES cfg.SERVING_URL_LOOKUP_TRIES 0 0 false (by omega)
    rcases hl : servingLoop (svc size crop secure_url)
        cfg.SERVING_URL_LOOKUP_TRIES 0 0 false with ⟨uo, calls, logged⟩
    rw [hl] at hle
    cases uo <;> simp_all [get_serving_url, hmiss]
  · intro hpos hfail
    have hall := servingLoop_all_fail (svc size crop secure_url)
      cfg.SERVING_URL_LOOKUP_TRIES hfail (cfg.SERVING_URL_LOOKUP_TRIES - 1) 0 0 false
      (by omega)
    simp only [get_serving_url, hmiss, hall]
    refine ⟨trivial, trivial, ?_⟩
    omega

/-- The constantly succeeding serving-URL service oracle, for witnesses. -/
def okSvc : Option Nat → Bool → Option Bool → Nat → Option String :=
  fun _ _ _ _ => some "http://img"

/-- The constantly raising serving-URL service oracle, for witnesses. -/
def failSvc : Option Nat → Bool → Option Bool → Nat → Option String :=
  fun _ _ _ _ => none

/-- Claim C3 witness: an empty cache and an always-raising service under
the default configuration. -/
theorem get_serving_url_retry_bound_w :
    mget [] 0 (cacheKey "k" none false) = none ∧
    ((get_serving_url {} "k" (some 5) none false none failSvc [] 0).svcCalls
        ≤ ({} : ImageConfig).SERVING_URL_LOOKUP_TRIES ∧
     (0 < ({} : ImageConfig).SERVING_URL_LOOKUP_TRIES →
       (∀ i, i < ({} : ImageConfig).SERVING_URL_LOOKUP_TRIES →
         failSvc none false none i = none) →
       (get_serving_url {} "k" (some 5) none false none failSvc [] 0).url = none ∧
       (get_serving_url {} "k" (some 5) none false none failSvc [] 0).loggedError
           = true ∧
       (get_serving_url {} "k" (some 5) none false none failSvc [] 0).svcCalls
           = ({} : ImageConfig).SERVING_URL_LOOKUP_TRIES)) :=
  ⟨rfl, get_serving_url_retry_bound {} "k" 5 none false none failSvc [] 0 rfl⟩

/-- A fresh cache entry written by mset is returned by mget before its
expiry. -/
theorem mget_mset_self (cache : Memcache) (k v : String) (t now now2 : Nat)
    (h : now2 < now + t) :
    mget (mset cache k v t now) now2 k = some v := by
  unfold mget mset
  rw [List.find?_cons_of_pos]
  simp [h]

/-- A second get_serving_url call on the cache left by a first successful
miss-then-store call is answered from the cache, with no service call,
as long as the entry has not expired; the secure_url argument and the
service oracle of the second call are arbitrary, since the cache key
ignores them. -/
theorem gsu_cached_second_call (cfg : ImageConfig) (mk : String) (bk : Nat)
    (size : Option Nat) (crop : Bool) (secure1 secure2 : Option Bool)
    (svc svc2 : Option Nat → Bool → Option Bool → Nat → Option String)
    (cache : Memcache) (now now2 : Nat) (u : String)
    (hmiss : mget cache now (cacheKey mk size crop) = none)
    (hfirst : (get_serving_url cfg mk (some bk) size crop secure1 svc cache now).url
        = some u)
    (hfresh : now2 < now + cfg.SERVING_URL_TIMEOUT) :
    (get_serving_url cfg mk (some bk) size crop secure2 svc2
        (get_serving_url cfg mk (some bk) size crop secure1 svc cache now).cache
        now2).url = some u ∧
    (get_serving_url cfg mk (some bk) size crop secure2 svc2
        (get_serving_url cfg mk (some bk) size crop secure1 svc cache now).cache
        now2).svcCalls = 0 := by
  rcases hl : servingLoop (svc size crop secure1)
      cfg.SERVING_URL_LOOKUP_TRIES 0 0 false with ⟨uo, calls, logged⟩
  cases uo with
  | none => simp [get_serving_url, hmiss, hl] at hfirst
  | some u1 =>
    have hu1 : u1 = u := by simpa [get_serving_url, hmiss, hl] using hfirst
    subst hu1
    have hcache : (get_serving_url cfg mk (some bk) size crop secure1 svc cache now).cache
        = mset cache (cacheKey mk size crop) u1 cfg.SERVING_URL_TIMEOUT now := by
      simp [get_serving_url, hmiss, hl]
    rw [hcache]
    have hhit := mget_mset_self cache (cacheKey mk size crop) u1
      cfg.SERVING_URL_TIMEOUT now now2 hfresh
    constructor <;> simp [get_serving_url, hhit]

/-- Claim C4: after a first get_serving_url call that misses the cache and
succeeds against the service, a second call with the identical size, crop
and secure_url made before the stored entry expires returns the same URL
and performs no service call. -/
theorem get_serving_url_cache_hit_second_call (cfg : ImageConfig) (mk : String)
    (bk : Nat) (size : Option Nat) (crop : Bool) (secure_url : Option Bool)
    (svc : Option Nat → Bool → Option Bool → Nat → Option String)
    (cache : Memcache) (now now2 : Nat) (u : String)
    (hmiss : mget cache now (cacheKey mk size crop) = none)
    (hfirst : (get_serving_url cfg mk (some bk) size crop secure_url svc cache now).url
        = some u)
    (hfresh : now2 < now + cfg.SERVING_URL_TIMEOUT) :
    (get_serving_url cfg mk (some bk) size crop secure_url svc
        (get_serving_url cfg mk (some bk) size crop secure_url svc cache now).cache
        now2).url = some u ∧
    (get_serving_url cfg mk (some bk) size crop secure_url svc
        (get_serving_url cfg mk (some bk) size crop secure_url svc cache now).cache
        now2).svcCalls = 0 :=
  gsu_cached_second_call cfg mk bk size crop secure_url secure_url svc svc cache
    now now2 u hmiss hfirst hfresh

/-- Claim C4 witness: two identical calls against an always-succeeding
service, the second one second later. -/
theorem get_serving_url_cache_hit_second_call_w :
    mget [] 0 (cacheKey "k" none false) = none ∧
    (get_serving_url {} "k" (some 5) none false none okSvc [] 0).url
        = some "http://img" ∧
    (1 < 0 + ({} : ImageConfig).SERVING_URL_TIMEOUT) ∧
    ((get_serving_url {} "k" (some 5) none false none okSvc
        (get_serving_url {} "k" (some 5) none false none okSvc [] 0).cache 1).url
        = some "http://img" ∧
     (get_serving_url {} "k" (some 5) none false none okSvc
        (get_serving_url {} "k" (some 5) none false none okSvc [] 0).cache 1).svcCalls
        = 0) :=
  ⟨rfl, by simp [get_serving_url, mget, servingLoop_eq, okSvc], by decide,
   get_serving_url_cache_hit_second_call {} "k" 5 none false none okSvc [] 0 1
     "http://img" rfl (by simp [get_serving_url, mget, servingLoop_eq, okSvc])
     (by decide)⟩

/-- Claim C9: the serving-URL cache key is built from the entity key, size
and crop only, so a call with secure_url true made while the entry stored
by an earlier call with secure_url false (same size and crop) is live
returns that cached URL without any service call. -/
theorem serving_url_cache_ignores_secure (cfg : ImageConfig) (mk : String)
    (bk : Nat) (size : Option Nat) (crop : Bool)
    (svc : Option Nat → Bool → Option Bool → Nat → Option String)
    (cache : Memcache) (now now2 : Nat) (u : String)
    (hmiss : mget cache now (cacheKey mk size crop) = none)
    (hfirst : (get_serving_url cfg mk (some bk) size crop (some false) svc cache
        now).url = some u)
    (hfresh : now2 < now + cfg.SERVING_URL_TIMEOUT) :
    (get_serving_url cfg mk (some bk) size crop (some true) svc
        (get_serving_url cfg mk (some bk) size crop (some false) svc cache now).cache
        now2).url = some u ∧
    (get_serving_url cfg mk (some bk) size crop (some true) svc
        (get_serving_url cfg mk (some bk) size crop (some false) svc cache now).cache
        now2).svcCalls = 0 :=
  gsu_cached_second_call cfg mk bk size crop (some false) (some true) svc svc cache
    now now2 u hmiss hfirst hfresh

/-- Claim C9 witness: a secure call answered from the cache entry stored by
an insecure call. -/
theorem serving_url_cache_ignores_secure_w :
    mget [] 0 (cacheKey "k" none false) = none ∧
    (get_serving_url {} "k" (some 5) none false (some false) okSvc [] 0).url
        = some "http://img" ∧
    (1 < 0 + ({} : ImageConfig).SERVING_URL_TIMEOUT) ∧
    ((get_serving_url {} "k" (some 5) none false (some true) okSvc
        (get_serving_url {} "k" (some 5) none false (some false) okSvc [] 0).cache
        1).url = some "http://img" ∧
     (get_serving_url {} "k" (some 5) none false (some true) okSvc
        (get_serving_url {} "k" (some 5) none false (some false) okSvc [] 0).cache
        1).svcCalls = 0) :=
  ⟨rfl, by simp [get_serving_url, mget, servingLoop_eq, okSvc], by decide,
   serving_url_cache_ignores_secure {} "k" 5 none false okSvc [] 0 1 "http://img"
     rfl (by simp [get_serving_url, mget, servingLoop_eq, okSvc]) (by decide)⟩

/-- Claim C5: every successful create yields an entity whose image_data is
exactly the input bytes, except that a supplied-or-resolved mime type of
image/jpeg or image/png with a differing detected format stores the bytes
re-encoded at quality 100 to the canonical format (encodedData, whose
newFormat case is exactly that exception). The three conjuncts cover the
three sources: raw bytes, a fetched URL (the input bytes being the fetched
content), and an existing blob reference (the input bytes being the blob's
content). -/
theorem create_image_data_round_trip :
    (∀ (o : Oracles) (cfg : ImageConfig) (w : World) (d : Bytes)
       (filename url mime_type : Option String) (meta : ImgMeta),
       resolveMime o mime_type (filename.getD (toString w.nextKey))
           ∈ cfg.VALID_MIME_TYPES →
       o.introspectData d = some meta →
       (create o cfg w none none (some d) filename url mime_type).1
           = Except.ok w.nextKey ∧
       image_data_of (create o cfg w none none (some d) filename url mime_type).2
           w.nextKey
         = some (encodedData o
             (resolveMime o mime_type (filename.getD (toString w.nextKey)))
             meta.format d)) ∧
    (∀ (o : Oracles) (cfg : ImageConfig) (w : World) (u : String) (d : Bytes)
       (filename mime_type mt0 fn0 : Option String) (meta : ImgMeta),
       fetchStage o none (some u) mime_type filename = (some d, mt0, fn0) →
       resolveMime o mt0 (fn0.getD (toString w.nextKey)) ∈ cfg.VALID_MIME_TYPES →
       o.introspectData d = some meta →
       (create o cfg w none none none filename (some u) mime_type).1
           = Except.ok w.nextKey ∧
       image_data_of (create o cfg w none none none filename (some u) mime_type).2
           w.nextKey
         = some (encodedData o (resolveMime o mt0 (fn0.getD (toString w.nextKey)))
             meta.format d)) ∧
    (∀ (o : Oracles) (cfg : ImageConfig) (w : World) (b : Nat) (blob : Blob)
       (data : Option Bytes) (filename url mime_type : Option String),
       blobLookup w b = some blob →
       (create o cfg w none (some b) data filename url mime_type).1
           = Except.ok w.nextKey ∧
       image_data_of (create o cfg w none (some b) data filename url mime_type).2
           w.nextKey
         = some blob.data) := by
  refine ⟨?_, ?_, ?_⟩
  · intro o cfg w d filename url mime_type meta hmt hmeta
    constructor <;>
      simp [create, fetchStage, create_new_entity, if_pos hmt, hmeta, writeBlob,
        putEntity, image_data_of, entityLookup, image_data, blobLookup]
  · intro o cfg w u d filename mime_type mt0 fn0 meta hfetch hmt hmeta
    constructor <;>
      simp [create, hfetch, create_new_entity, if_pos hmt, hmeta, writeBlob,
        putEntity, image_data_of, entityLookup, image_data, blobLookup]
  · intro o cfg w b blob data filename url mime_type hblob
    unfold blobLookup at hblob
    rw [Option.map_eq_some'] at hblob
    obtain ⟨p, hp, hpd⟩ := hblob
    constructor <;>
      simp [create, create_new_entity, image_data_of, entityLookup, image_data,
        blobLookup, hp, hpd]

/-- Claim C5 witness: the three sources at concrete inputs: raw bytes
[5, 6], a URL fetch returning [1, 2], and blob 7 of the demo world. -/
theorem create_image_data_round_trip_w :
    ((resolveMime pngOracles (some "image/png")
        ((none : Option String).getD (toString ({} : World).nextKey))
        ∈ ({} : ImageConfig).VALID_MIME_TYPES) ∧
     pngOracles.introspectData [5, 6]
        = some { format := ImgFormat.png, width := 2, height := 1 } ∧
     (create pngOracles {} {} none none (some [5, 6]) none none
         (some "image/png")).1 = Except.ok ({} : World).nextKey ∧
     image_data_of (create pngOracles {} {} none none (some [5, 6]) none none
         (some "image/png")).2 ({} : World).nextKey
       = some (encodedData pngOracles "image/png" ImgFormat.png [5, 6])) ∧
    (fetchStage pngOracles none (some "http://pic") (some "image/png") none
        = (some [1, 2], some "image/png", some "pic.png") ∧
     (create pngOracles {} {} none none none none (some "http://pic")
         (some "image/png")).1 = Except.ok ({} : World).nextKey ∧
     image_data_of (create pngOracles {} {} none none none none (some "http://pic")
         (some "image/png")).2 ({} : World).nextKey
       = some (encodedData pngOracles "image/png" ImgFormat.png [1, 2])) ∧
    (blobLookup demoWorld 7
        = some { mime := "image/png", filename := "a", data := [1, 2, 3] } ∧
     (create pngOracles {} demoWorld none (some 7) none none none none).1
        = Except.ok demoWorld.nextKey ∧
     image_data_of (create pngOracles {} demoWorld none (some 7) none none
         none none).2 demoWorld.nextKey = some [1, 2, 3]) :=
  ⟨⟨by decide, rfl,
    create_image_data_round_trip.1 pngOracles {} {} [5, 6] none none
      (some "image/png") { format := ImgFormat.png, width := 2, height := 1 }
      (by decide) rfl⟩,
   ⟨rfl,
    create_image_data_round_trip.2.1 pngOracles {} {} "http://pic" [1, 2] none
      (some "image/png") (some "image/png") (some "pic.png")
      { format := ImgFormat.png, width := 2, height := 1 } rfl (by decide) rfl⟩,
   ⟨rfl,
    create_image_data_round_trip.2.2 pngOracles {} demoWorld 7
      { mime := "image/png", filename := "a", data := [1, 2, 3] } none none none
      none rfl⟩⟩

/-- Claim C6: format, width and height each return none when no blob
reference is attached; with a blob attached, when direct introspection
raises NotImageError, each property re-runs introspection on the fetched
prefix of the blob, the bytes at indices 0 through IMAGE_HEADER_SIZE, and
returns its outcome (a second NotImageError propagating). -/
theorem metadata_none_and_prefix_fallback (o : Oracles) (w : World) (e : Entity) :
    (e.blobKey = none →
      format o w e = Except.ok none ∧ width o w e = Except.ok none ∧
        height o w e = Except.ok none) ∧
    (∀ bk blob, e.blobKey = some bk → blobLookup w bk = some blob →
      o.introspectBlob bk = none →
      format o w e =
        (match o.introspectData (blob.data.take (IMAGE_HEADER_SIZE + 1)) with
         | some m => Except.ok (some m.format)
         | none => Except.error ()) ∧
      width o w e =
        (match o.introspectData (blob.data.take (IMAGE_HEADER_SIZE + 1)) with
         | some m => Except.ok (some m.width)
         | none => Except.error ()) ∧
      height o w e =
        (match o.introspectData (blob.data.take (IMAGE_HEADER_SIZE + 1)) with
         | some m => Except.ok (some m.height)
         | none => Except.error ())) := by
  constructor
  · intro h
    refine ⟨?_, ?_, ?_⟩ <;> simp [format, width, height, h]
  · intro bk blob hbk hblob hib
    have hfd : fetch_data w bk 0 IMAGE_HEADER_SIZE
        = blob.data.take (IMAGE_HEADER_SIZE + 1) := by
      simp [fetch_data, hblob]
    refine ⟨?_, ?_, ?_⟩ <;>
      cases hid : o.introspectData (blob.data.take (IMAGE_HEADER_SIZE + 1)) <;>
        simp [format, width, height, hbk, hib, hfd, hid]

/-- Claim C6 witness: an entity with no blob, and the demo entity whose
blob 7 is unrecognisable both directly and on its prefix, where the second
NotImageError propagates. -/
theorem metadata_none_and_prefix_fallback_w :
    (({} : Entity).blobKey = none ∧
     format noOracles demoWorld {} = Except.ok none ∧
     width noOracles demoWorld {} = Except.ok none ∧
     height noOracles demoWorld {} = Except.ok none) ∧
    (({ blobKey := some 7 } : Entity).blobKey = some 7 ∧
     blobLookup demoWorld 7
        = some { mime := "image/png", filename := "a", data := [1, 2, 3] } ∧
     noOracles.introspectBlob 7 = none ∧
     format noOracles demoWorld { blobKey := some 7 } = Except.error () ∧
     width noOracles demoWorld { blobKey := some 7 } = Except.error () ∧
     height noOracles demoWorld { blobKey := some 7 } = Except.error ()) :=
  ⟨⟨rfl, (metadata_none_and_prefix_fallback noOracles demoWorld {}).1 rfl⟩,
   ⟨rfl, rfl, rfl,
    (metadata_none_and_prefix_fallback noOracles demoWorld { blobKey := some 7 }).2
      7 { mime := "image/png", filename := "a", data := [1, 2, 3] } rfl rfl rfl⟩⟩

end Agar
